import Mathlib

/-!
Shallow embedding of the `cosmos_writer` CosmWasm smart contract
(`src/contract.rs`, `src/state.rs`, `src/msg.rs`).

The contract keeps a single persisted record `State { data, admins }` in one
storage slot (`STATE : Item<State>` in `state.rs`).  `instantiate` creates the
record with the creator as sole admin; `execute` dispatches the three mutating
operations (Write, AddAdmin, RemoveAdmin), each of which runs inside
`STATE.update` (load, apply the closure, save only on success); `query` serves
the two reads (GetData, GetAdmins).

Modelling conventions:
- bytes (`Vec<u8>`) are `List Nat`; addresses (`Addr`) are `String` in their
  canonical form; the storage slot content is `Option State` (`none` before
  instantiation);
- stateful storage access is explicit state passing: each entry point returns
  the new slot content together with the `Except` result, and `stateUpdate`
  mirrors `Item::update` (load-or-NotFound, apply, save only on `Ok`);
- address validation (`deps.api.addr_validate`) is an external collaborator of
  the repository, so the handlers are parametrized by a `Validator`.
-/

deriving instance DecidableEq for Except

namespace CosmosWriter

/-- Modelled from the spec: the repository's error type (its `error.rs` is not
under `src/`; only `contract.rs` uses it).  Spec section 7 gives the taxonomy:
`Unauthorized`, `InvalidAddress`, `NotFound`, `SerializationFailure`. -/
inductive ContractError where
  | Unauthorized
  | InvalidAddress
  | NotFound
  | SerializationFailure
  deriving DecidableEq, Repr

/-- The persisted record, from `state.rs`: `pub struct State { pub data: Vec<u8>,
pub admins: Vec<Addr> }`. -/
structure State where
  data : List Nat
  admins : List String
  deriving DecidableEq, Repr

/-- From `msg.rs`: `pub struct InstantiateMsg { pub data: Vec<u8> }`. -/
structure InstantiateMsg where
  data : List Nat
  deriving DecidableEq, Repr

/-- From `msg.rs`: the `ExecuteMsg` enum with variants `Write { data }`,
`AddAdmin { admin }`, `RemoveAdmin { admin }`. -/
inductive ExecuteMsg where
  | Write (data : List Nat)
  | AddAdmin (admin : String)
  | RemoveAdmin (admin : String)
  deriving DecidableEq, Repr

/-- From `msg.rs`: `pub struct GetWriteResponse { pub data: Vec<u8> }`. -/
structure GetWriteResponse where
  data : List Nat
  deriving DecidableEq, Repr

/-- From `msg.rs`: `pub struct GetAdminResponse { pub admins: Vec<Addr> }`. -/
structure GetAdminResponse where
  admins : List String
  deriving DecidableEq, Repr

/-- A CosmWasm `Response`, reduced to the part the contract produces: the list
of `add_attribute` key/value pairs, in order. -/
structure Response where
  attributes : List (String × String)
  deriving DecidableEq, Repr

/-- The shape of the external address-validation collaborator
(`deps.api.addr_validate`): it takes the textual address and returns its
canonical form or a validation error. -/
abbrev Validator := String → Except ContractError String

/-- Modelled from the spec: address validation is delegated to the external
validation collaborator ("format-checking a textual address and returning a
canonical form or a validation error; fails with `InvalidAddress` if
malformed").  This instance mirrors CosmWasm's `addr_validate`, which rejects
input that is not already normalized: it accepts a nonempty string with no
uppercase letter and returns it unchanged. -/
def mockValidate : Validator := fun s =>
  if s.isEmpty then .error .InvalidAddress
  else if s.toList.all (fun c => !c.isUpper) then .ok s
  else .error .InvalidAddress

/-- Modelled from the spec: a canonicalizing variant of the validation
collaborator, which maps a nonempty address to its lowercase canonical form
(spec section 6: "human-readable strings on input, canonicalized identity
values internally"). -/
def lowerValidate : Validator := fun s =>
  if s.isEmpty then .error .InvalidAddress
  else .ok (s.toList.map Char.toLower).asString

/-- `Item::update` from `cw-storage-plus`, specialized to `STATE`: load the
record (`NotFound` when the slot is empty), apply the closure, and persist the
output only when the closure succeeds.  Returns the new slot content paired
with the result; on any error the slot is unchanged. -/
def stateUpdate (storage : Option State)
    (action : State → Except ContractError State) :
    Option State × Except ContractError State :=
  match storage with
  | none => (none, .error .NotFound)
  | some input =>
    match action input with
    | .error e => (some input, .error e)
    | .ok output => (some output, .ok output)

/-- `instantiate` from `contract.rs`: saves `State { data: msg.data, admins:
vec![info.sender] }` and answers with the `method`/`admin` attributes.  (The
`set_contract_version` call writes a separate `cw2` bookkeeping slot and does
not touch the record.) -/
def instantiate (_storage : Option State) (sender : String)
    (msg : InstantiateMsg) : Option State × Except ContractError Response :=
  let state : State := { data := msg.data, admins := [sender] }
  (some state,
   .ok { attributes := [("method", "instantiate"), ("admin", sender)] })

/-- `execute::update` from `contract.rs`: inside `STATE.update`, fail with
`Unauthorized` unless the sender is in `admins`, otherwise replace `data`;
answer with the attribute `("action", "update")`. -/
def execute.update (storage : Option State) (sender : String)
    (data : List Nat) : Option State × Except ContractError Response :=
  match stateUpdate storage (fun state =>
      if !(state.admins.contains sender) then .error .Unauthorized
      else .ok { state with data := data }) with
  | (storage2, .error e) => (storage2, .error e)
  | (storage2, .ok _) =>
    (storage2, .ok { attributes := [("action", "update")] })

/-- `execute::add_admin` from `contract.rs`: inside `STATE.update`, fail with
`Unauthorized` unless the sender is in `admins`; then validate the `admin`
string (propagating the validation error), and push the validated address onto
`admins` unless already present; answer with the `action`/`new_admin`
attributes, echoing the raw input string. -/
def execute.add_admin (api : Validator) (storage : Option State)
    (sender : String) (admin : String) :
    Option State × Except ContractError Response :=
  match stateUpdate storage (fun state =>
      if !(state.admins.contains sender) then .error .Unauthorized
      else
        match api admin with
        | .error e => .error e
        | .ok new_admin =>
          if !(state.admins.contains new_admin) then
            .ok { state with admins := state.admins ++ [new_admin] }
          else .ok state) with
  | (storage2, .error e) => (storage2, .error e)
  | (storage2, .ok _) =>
    (storage2,
     .ok { attributes := [("action", "add_admin"), ("new_admin", admin)] })

/-- `execute::remove_admin` from `contract.rs`: inside `STATE.update`, fail
with `Unauthorized` unless the sender is in `admins`; then validate the `admin`
string, and `retain` every entry different from the validated address; answer
with the `action`/`removed_admin` attributes, echoing the raw input string. -/
def execute.remove_admin (api : Validator) (storage : Option State)
    (sender : String) (admin : String) :
    Option State × Except ContractError Response :=
  match stateUpdate storage (fun state =>
      if !(state.admins.contains sender) then .error .Unauthorized
      else
        match api admin with
        | .error e => .error e
        | .ok remove_admin =>
          .ok { state with
                admins := state.admins.filter (fun x => !(x == remove_admin)) }) with
  | (storage2, .error e) => (storage2, .error e)
  | (storage2, .ok _) =>
    (storage2,
     .ok { attributes := [("action", "remove_admin"), ("removed_admin", admin)] })

/-- The `execute` entry point from `contract.rs`: dispatch on the message
variant. -/
def execute (api : Validator) (storage : Option State) (sender : String)
    (msg : ExecuteMsg) : Option State × Except ContractError Response :=
  match msg with
  | .Write data => execute.update storage sender data
  | .AddAdmin admin => execute.add_admin api storage sender admin
  | .RemoveAdmin admin => execute.remove_admin api storage sender admin

/-- `query::data` from `contract.rs`: load the record and return its `data`
field; the load fails with `NotFound` before instantiation. -/
def query.data (storage : Option State) :
    Except ContractError GetWriteResponse :=
  match storage with
  | none => .error .NotFound
  | some state => .ok { data := state.data }

/-- `query::admins` from `contract.rs`: load the record and return its
`admins` field in stored order. -/
def query.admins (storage : Option State) :
    Except ContractError GetAdminResponse :=
  match storage with
  | none => .error .NotFound
  | some state => .ok { admins := state.admins }

/-- Runs a list of execute calls in sequence against the storage slot, keeping
only the slot content (the host applies each call's state effect before
admitting the next call). -/
def runMsgs (api : Validator) (storage : Option State)
    (msgs : List (String × ExecuteMsg)) : Option State :=
  msgs.foldl (fun s m => (execute api s m.1 m.2).1) storage

/-- The storage contents reachable through the contract's entry points: the
slot right after some `instantiate` on the empty slot, and anything an
`execute` call produces from a reachable slot. -/
inductive Reachable (api : Validator) : Option State → Prop where
  | instantiated (sender : String) (d : List Nat) :
      Reachable api (instantiate none sender { data := d }).1
  | step (storage : Option State) (sender : String) (msg : ExecuteMsg) :
      Reachable api storage → Reachable api (execute api storage sender msg).1

/-! Characterization lemmas: closed forms for each entry point on an
instantiated slot, read off the source. -/

theorem execute_none (api : Validator) (sender : String) (msg : ExecuteMsg) :
    execute api none sender msg = (none, .error .NotFound) := by
  cases msg <;> rfl

theorem update_spec (st : State) (sender : String) (d : List Nat) :
    execute.update (some st) sender d =
      if sender ∈ st.admins then
        (some { data := d, admins := st.admins },
         .ok { attributes := [("action", "update")] })
      else (some st, .error .Unauthorized) := by
  simp only [execute.update, stateUpdate, List.contains, List.elem_eq_mem]
  by_cases h : sender ∈ st.admins <;> simp [h]

theorem add_admin_spec (api : Validator) (st : State) (sender admin : String) :
    execute.add_admin api (some st) sender admin =
      if sender ∈ st.admins then
        match api admin with
        | .error e => (some st, .error e)
        | .ok a =>
          (some { st with
                  admins := if a ∈ st.admins then st.admins
                            else st.admins ++ [a] },
           .ok { attributes := [("action", "add_admin"), ("new_admin", admin)] })
      else (some st, .error .Unauthorized) := by
  simp only [execute.add_admin, stateUpdate, List.contains, List.elem_eq_mem]
  by_cases h : sender ∈ st.admins
  · cases hv : api admin with
    | error e => simp [h, hv]
    | ok a => by_cases ha : a ∈ st.admins <;> simp [h, hv, ha]
  · simp [h]

theorem remove_admin_spec (api : Validator) (st : State) (sender admin : String) :
    execute.remove_admin api (some st) sender admin =
      if sender ∈ st.admins then
        match api admin with
        | .error e => (some st, .error e)
        | .ok a =>
          (some { st with admins := st.admins.filter (fun x => !(x == a)) },
           .ok { attributes :=
                  [("action", "remove_admin"), ("removed_admin", admin)] })
      else (some st, .error .Unauthorized) := by
  simp only [execute.remove_admin, stateUpdate, List.contains, List.elem_eq_mem]
  by_cases h : sender ∈ st.admins
  · cases hv : api admin with
    | error e => simp [h, hv]
    | ok a => simp [h, hv]
  · simp [h]

theorem update_unauth (st : State) (sender : String) (d : List Nat)
    (h : sender ∉ st.admins) :
    execute.update (some st) sender d = (some st, .error .Unauthorized) := by
  rw [update_spec, if_neg h]

theorem update_ok (st : State) (sender : String) (d : List Nat)
    (h : sender ∈ st.admins) :
    execute.update (some st) sender d =
      (some { data := d, admins := st.admins },
       .ok { attributes := [("action", "update")] }) := by
  rw [update_spec, if_pos h]

theorem add_admin_unauth (api : Validator) (st : State) (sender admin : String)
    (h : sender ∉ st.admins) :
    execute.add_admin api (some st) sender admin =
      (some st, .error .Unauthorized) := by
  rw [add_admin_spec, if_neg h]

theorem add_admin_invalid (api : Validator) (st : State) (sender admin : String)
    (e : ContractError) (hm : sender ∈ st.admins) (hv : api admin = .error e) :
    execute.add_admin api (some st) sender admin = (some st, .error e) := by
  rw [add_admin_spec, if_pos hm, hv]

theorem add_admin_existing (api : Validator) (st : State)
    (sender admin a : String) (hm : sender ∈ st.admins)
    (hv : api admin = .ok a) (ha : a ∈ st.admins) :
    execute.add_admin api (some st) sender admin =
      (some st,
       .ok { attributes := [("action", "add_admin"), ("new_admin", admin)] }) := by
  rw [add_admin_spec, if_pos hm, hv]
  simp [ha]

theorem add_admin_new (api : Validator) (st : State) (sender admin a : String)
    (hm : sender ∈ st.admins) (hv : api admin = .ok a) (ha : a ∉ st.admins) :
    execute.add_admin api (some st) sender admin =
      (some { data := st.data, admins := st.admins ++ [a] },
       .ok { attributes := [("action", "add_admin"), ("new_admin", admin)] }) := by
  rw [add_admin_spec, if_pos hm, hv]
  simp [ha]

theorem remove_admin_unauth (api : Validator) (st : State)
    (sender admin : String) (h : sender ∉ st.admins) :
    execute.remove_admin api (some st) sender admin =
      (some st, .error .Unauthorized) := by
  rw [remove_admin_spec, if_neg h]

theorem remove_admin_invalid (api : Validator) (st : State)
    (sender admin : String) (e : ContractError) (hm : sender ∈ st.admins)
    (hv : api admin = .error e) :
    execute.remove_admin api (some st) sender admin = (some st, .error e) := by
  rw [remove_admin_spec, if_pos hm, hv]

theorem remove_admin_ok (api : Validator) (st : State) (sender admin a : String)
    (hm : sender ∈ st.admins) (hv : api admin = .ok a) :
    execute.remove_admin api (some st) sender admin =
      (some { data := st.data,
              admins := st.admins.filter (fun x => !(x == a)) },
       .ok { attributes :=
              [("action", "remove_admin"), ("removed_admin", admin)] }) := by
  rw [remove_admin_spec, if_pos hm, hv]

example :
    execute mockValidate (some { data := [17], admins := ["creator"] })
      "anyone" (.Write [18]) =
    (some { data := [17], admins := ["creator"] }, .error .Unauthorized) := by
  decide

example :
    execute mockValidate (some { data := [17], admins := ["creator"] })
      "creator" (.AddAdmin "new_user") =
    (some { data := [17], admins := ["creator", "new_user"] },
     .ok { attributes := [("action", "add_admin"), ("new_admin", "new_user")] }) := by
  decide

example :
    execute mockValidate (some { data := [17], admins := ["creator", "new_user"] })
      "creator" (.RemoveAdmin "new_user") =
    (some { data := [17], admins := ["creator"] },
     .ok { attributes := [("action", "remove_admin"), ("removed_admin", "new_user")] }) := by
  decide

example : lowerValidate "Alice" = .ok "alice" := by decide

example : mockValidate "BAD" = .error .InvalidAddress := by decide

/-- Every error the `mockValidate` collaborator returns is `InvalidAddress`. -/
theorem mockValidate_error (s : String) (e : ContractError)
    (h : mockValidate s = .error e) : e = ContractError.InvalidAddress := by
  unfold mockValidate at h
  split at h
  · exact (Except.error.injEq _ _ ▸ h).symm
  · split at h
    · cases h
    · exact (Except.error.injEq _ _ ▸ h).symm

/-- C2: for every mutating operation and every error outcome (`Unauthorized`,
`InvalidAddress`, `NotFound`), when the operation returns an error the stored
record is exactly the same after the call as before it: no partial write is
persisted. -/
theorem C2_error_leaves_record_unchanged (api : Validator)
    (storage : Option State) (sender : String) (msg : ExecuteMsg)
    (e : ContractError) (h : (execute api storage sender msg).2 = .error e) :
    (execute api storage sender msg).1 = storage := by
  cases storage with
  | none => cases msg <;> rfl
  | some st =>
    cases msg with
    | Write d =>
      by_cases hm : sender ∈ st.admins
      · rw [show execute api (some st) sender (.Write d) =
            execute.update (some st) sender d from rfl, update_ok st sender d hm] at h
        cases h
      · rw [show execute api (some st) sender (.Write d) =
            execute.update (some st) sender d from rfl, update_unauth st sender d hm]
    | AddAdmin admin =>
      by_cases hm : sender ∈ st.admins
      · cases hv : api admin with
        | error e2 =>
          rw [show execute api (some st) sender (.AddAdmin admin) =
              execute.add_admin api (some st) sender admin from rfl,
            add_admin_invalid api st sender admin e2 hm hv]
        | ok a =>
          by_cases ha : a ∈ st.admins
          · rw [show execute api (some st) sender (.AddAdmin admin) =
                execute.add_admin api (some st) sender admin from rfl,
              add_admin_existing api st sender admin a hm hv ha] at h
            cases h
          · rw [show execute api (some st) sender (.AddAdmin admin) =
                execute.add_admin api (some st) sender admin from rfl,
              add_admin_new api st sender admin a hm hv ha] at h
            cases h
      · rw [show execute api (some st) sender (.AddAdmin admin) =
            execute.add_admin api (some st) sender admin from rfl,
          add_admin_unauth api st sender admin hm]
    | RemoveAdmin admin =>
      by_cases hm : sender ∈ st.admins
      · cases hv : api admin with
        | error e2 =>
          rw [show execute api (some st) sender (.RemoveAdmin admin) =
              execute.remove_admin api (some st) sender admin from rfl,
            remove_admin_invalid api st sender admin e2 hm hv]
        | ok a =>
          rw [show execute api (some st) sender (.RemoveAdmin admin) =
              execute.remove_admin api (some st) sender admin from rfl,
            remove_admin_ok api st sender admin a hm hv] at h
          cases h
      · rw [show execute api (some st) sender (.RemoveAdmin admin) =
            execute.remove_admin api (some st) sender admin from rfl,
          remove_admin_unauth api st sender admin hm]

/-- Witness for C2: an unauthorized Write on a concrete record returns an
error and leaves the storage slot holding the same record. -/
theorem C2_error_leaves_record_unchanged_witness :
    (execute mockValidate (some { data := [17], admins := ["creator"] })
      "anyone" (.Write [18])).1 = some { data := [17], admins := ["creator"] } :=
  C2_error_leaves_record_unchanged mockValidate
    (some { data := [17], admins := ["creator"] }) "anyone" (.Write [18])
    .Unauthorized (by decide)

/-- C3: immediately after `instantiate` by creator `k` with payload `d`,
`GetAdmins` returns exactly the one-element list `[k]` and `GetData` returns
exactly `d`. -/
theorem C3_instantiate_initial_record (storage : Option State) (sender : String)
    (d : List Nat) :
    query.admins (instantiate storage sender { data := d }).1 =
      .ok { admins := [sender] }
    ∧ query.data (instantiate storage sender { data := d }).1 =
      .ok { data := d } :=
  ⟨rfl, rfl⟩

/-- C6: a successful Write replaces the record's `data` field wholesale with
the payload, leaves `admins` exactly unchanged, and its success response
carries the single attribute `("action", "update")`. -/
theorem C6_write_replaces_data_frames_admins (st : State) (sender : String)
    (d : List Nat) (h : sender ∈ st.admins) :
    execute.update (some st) sender d =
      (some { data := d, admins := st.admins },
       .ok { attributes := [("action", "update")] }) :=
  update_ok st sender d h

/-- Witness for C6: the authorized creator overwrites `[17]` with `[18]`. -/
theorem C6_write_replaces_data_frames_admins_witness :
    execute.update (some { data := [17], admins := ["creator"] })
        "creator" [18] =
      (some { data := [18], admins := ["creator"] },
       .ok { attributes := [("action", "update")] }) :=
  C6_write_replaces_data_frames_admins
    { data := [17], admins := ["creator"] } "creator" [18] (by decide)

/-- C10: once the admin list is empty, every mutating operation fails with
`Unauthorized` and leaves the record unchanged, and any sequence of further
execute calls leaves the slot exactly as it was: emptiness of `admins` is
absorbing. -/
theorem C10_empty_admins_absorbing (api : Validator) (st : State)
    (h : st.admins = []) :
    (∀ sender msg,
      execute api (some st) sender msg = (some st, .error .Unauthorized))
    ∧ ∀ msgs, runMsgs api (some st) msgs = some st := by
  have hstep : ∀ sender msg,
      execute api (some st) sender msg = (some st, .error .Unauthorized) := by
    intro sender msg
    have hnm : sender ∉ st.admins := by simp [h]
    cases msg with
    | Write d => exact update_unauth st sender d hnm
    | AddAdmin admin => exact add_admin_unauth api st sender admin hnm
    | RemoveAdmin admin => exact remove_admin_unauth api st sender admin hnm
  refine ⟨hstep, ?_⟩
  intro msgs
  induction msgs with
  | nil => rfl
  | cons m rest ih =>
    show runMsgs api (execute api (some st) m.1 m.2).1 rest = some st
    rw [hstep m.1 m.2]
    exact ih

/-- Witness for C10: with an empty admin list, a concrete Write fails with
`Unauthorized` and leaves the slot unchanged. -/
theorem C10_empty_admins_absorbing_witness :
    execute mockValidate (some { data := [5], admins := [] })
        "anyone" (.Write [1]) =
      (some { data := [5], admins := [] }, .error .Unauthorized) :=
  (C10_empty_admins_absorbing mockValidate { data := [5], admins := [] }
    rfl).1 "anyone" (.Write [1])

/-- C1 counterexample: the claim "a mutating operation succeeds iff the caller
is a member of the admin list" is false on the code: here the caller `creator`
is a member, yet its AddAdmin call with the malformed address `BAD` fails
(with `InvalidAddress`, not success). -/
theorem C1_counterexample :
    "creator" ∈ (State.mk [1] ["creator"]).admins
    ∧ execute mockValidate (some (State.mk [1] ["creator"])) "creator"
        (.AddAdmin "BAD") =
      (some (State.mk [1] ["creator"]), .error .InvalidAddress) := by
  decide

/-- C1 amended: membership is necessary for success and its absence is
exactly what produces `Unauthorized`: a mutating operation from a non-member
fails with `Unauthorized` (record unchanged); an `Unauthorized` outcome only
arises for non-members (given that the validation collaborator reports its
failures as `InvalidAddress`); any success implies membership; and Write from
a member always succeeds.  AddAdmin and RemoveAdmin from a member can still
fail with `InvalidAddress` when the admin argument is malformed. -/
theorem C1_authorization_gate (api : Validator)
    (hapi : ∀ s e, api s = .error e → e = ContractError.InvalidAddress)
    (st : State) (sender : String) (msg : ExecuteMsg) :
    (sender ∉ st.admins →
      execute api (some st) sender msg = (some st, .error .Unauthorized))
    ∧ ((execute api (some st) sender msg).2 = .error .Unauthorized →
      sender ∉ st.admins)
    ∧ (∀ r,
      (execute api (some st) sender msg).2 = .ok r → sender ∈ st.admins)
    ∧ (∀ d, sender ∈ st.admins →
      (execute api (some st) sender (.Write d)).2 =
        .ok { attributes := [("action", "update")] }) := by
  have h1 : sender ∉ st.admins →
      execute api (some st) sender msg = (some st, .error .Unauthorized) := by
    intro hnm
    cases msg with
    | Write d => exact update_unauth st sender d hnm
    | AddAdmin admin => exact add_admin_unauth api st sender admin hnm
    | RemoveAdmin admin => exact remove_admin_unauth api st sender admin hnm
  have h2 : (execute api (some st) sender msg).2 = .error .Unauthorized →
      sender ∉ st.admins := by
    intro herr hm
    cases msg with
    | Write d =>
      rw [show execute api (some st) sender (.Write d) =
          execute.update (some st) sender d from rfl,
        update_ok st sender d hm] at herr
      cases herr
    | AddAdmin admin =>
      cases hv : api admin with
      | error e2 =>
        rw [show execute api (some st) sender (.AddAdmin admin) =
            execute.add_admin api (some st) sender admin from rfl,
          add_admin_invalid api st sender admin e2 hm hv] at herr
        have he2 : e2 = ContractError.Unauthorized := Except.error.inj herr
        rw [he2] at hv
        cases hapi admin _ hv
      | ok a =>
        by_cases ha : a ∈ st.admins
        · rw [show execute api (some st) sender (.AddAdmin admin) =
              execute.add_admin api (some st) sender admin from rfl,
            add_admin_existing api st sender admin a hm hv ha] at herr
          cases herr
        · rw [show execute api (some st) sender (.AddAdmin admin) =
              execute.add_admin api (some st) sender admin from rfl,
            add_admin_new api st sender admin a hm hv ha] at herr
          cases herr
    | RemoveAdmin admin =>
      cases hv : api admin with
      | error e2 =>
        rw [show execute api (some st) sender (.RemoveAdmin admin) =
            execute.remove_admin api (some st) sender admin from rfl,
          remove_admin_invalid api st sender admin e2 hm hv] at herr
        have he2 : e2 = ContractError.Unauthorized := Except.error.inj herr
        rw [he2] at hv
        cases hapi admin _ hv
      | ok a =>
        rw [show execute api (some st) sender (.RemoveAdmin admin) =
            execute.remove_admin api (some st) sender admin from rfl,
          remove_admin_ok api st sender admin a hm hv] at herr
        cases herr
  refine ⟨h1, h2, ?_, ?_⟩
  · intro r hok
    by_contra hnm
    rw [h1 hnm] at hok
    cases hok
  · intro d hm
    rw [show execute api (some st) sender (.Write d) =
        execute.update (some st) sender d from rfl, update_ok st sender d hm]

/-- Witness for C1 (amended): a non-member's Write on a concrete record fails
with `Unauthorized` and leaves the record unchanged. -/
theorem C1_authorization_gate_witness :
    execute mockValidate (some { data := [17], admins := ["creator"] })
        "anyone" (.Write [18]) =
      (some { data := [17], admins := ["creator"] }, .error .Unauthorized) :=
  (C1_authorization_gate mockValidate mockValidate_error
    { data := [17], admins := ["creator"] } "anyone" (.Write [18])).1
    (by decide)

/-- C4: AddAdmin is idempotent and order-preserving: when the validated admin
is already present, a successful AddAdmin returns the record unchanged (same
order, same cardinality) and still reports success; when it is not present, it
is appended at the end of the list. -/
theorem C4_add_admin_idempotent_append (api : Validator) (st : State)
    (sender admin a : String) (hs : sender ∈ st.admins)
    (hv : api admin = .ok a) :
    (a ∈ st.admins →
      execute.add_admin api (some st) sender admin =
        (some st,
         .ok { attributes := [("action", "add_admin"), ("new_admin", admin)] }))
    ∧ (a ∉ st.admins →
      execute.add_admin api (some st) sender admin =
        (some { data := st.data, admins := st.admins ++ [a] },
         .ok { attributes :=
                [("action", "add_admin"), ("new_admin", admin)] })) :=
  ⟨fun ha => add_admin_existing api st sender admin a hs hv ha,
   fun ha => add_admin_new api st sender admin a hs hv ha⟩

/-- Witness for C4: re-adding the already-present admin `bob` succeeds and
leaves the admin list exactly as it was. -/
theorem C4_add_admin_idempotent_append_witness :
    execute.add_admin mockValidate
        (some { data := [0], admins := ["alice", "bob"] }) "alice" "bob" =
      (some { data := [0], admins := ["alice", "bob"] },
       .ok { attributes := [("action", "add_admin"), ("new_admin", "bob")] }) :=
  (C4_add_admin_idempotent_append mockValidate
    { data := [0], admins := ["alice", "bob"] } "alice" "bob" "bob"
    (by decide) (by decide)).1 (by decide)

/-- C5: RemoveAdmin by an authorized caller succeeds, removes every entry
equal to the validated admin (the result is the `retain`/filter of the old
list), the validated admin is absent afterwards, the remaining entries keep
their relative order (the new list is a sublist of the old one), `data` is
untouched, and removing a non-member is a no-op that still succeeds. -/
theorem C5_remove_admin_filters (api : Validator) (st : State)
    (sender admin a : String) (hs : sender ∈ st.admins)
    (hv : api admin = .ok a) :
    ∃ st2,
      execute.remove_admin api (some st) sender admin =
        (some st2,
         .ok { attributes :=
                [("action", "remove_admin"), ("removed_admin", admin)] })
      ∧ st2.data = st.data
      ∧ st2.admins = st.admins.filter (fun x => !(x == a))
      ∧ a ∉ st2.admins
      ∧ st2.admins.Sublist st.admins
      ∧ (a ∉ st.admins → st2 = st) := by
  refine ⟨{ data := st.data,
            admins := st.admins.filter (fun x => !(x == a)) },
    remove_admin_ok api st sender admin a hs hv, rfl, rfl, ?_, ?_, ?_⟩
  · simp [List.mem_filter]
  · exact List.filter_sublist st.admins
  · intro ha
    have hfe : st.admins.filter (fun x => !(x == a)) = st.admins := by
      apply List.filter_eq_self.mpr
      intro x hx
      simp only [Bool.not_eq_true', beq_eq_false_iff_ne, ne_eq]
      intro hxa
      exact ha (hxa ▸ hx)
    simp [hfe]

/-- Witness for C5: removing `new_user` from a two-admin list leaves only
`creator`, with the expected attributes. -/
theorem C5_remove_admin_filters_witness :
    ∃ st2,
      execute.remove_admin mockValidate
          (some { data := [1], admins := ["creator", "new_user"] })
          "creator" "new_user" =
        (some st2,
         .ok { attributes :=
                [("action", "remove_admin"), ("removed_admin", "new_user")] })
      ∧ st2.data = [1]
      ∧ st2.admins =
          (["creator", "new_user"] : List String).filter
            (fun x => !(x == "new_user"))
      ∧ "new_user" ∉ st2.admins
      ∧ st2.admins.Sublist ["creator", "new_user"]
      ∧ ("new_user" ∉ (["creator", "new_user"] : List String) →
          st2 = { data := [1], admins := ["creator", "new_user"] }) :=
  C5_remove_admin_filters mockValidate
    { data := [1], admins := ["creator", "new_user"] } "creator" "new_user"
    "new_user" (by decide) (by decide)

/-- Every slot content reachable through the entry points holds an admin list
without duplicates (auxiliary induction over the reachability relation). -/
theorem reachable_nodup_aux (api : Validator) (storage : Option State)
    (h : Reachable api storage) :
    ∀ st, storage = some st → st.admins.Nodup := by
  induction h with
  | instantiated sender d =>
    intro st hst
    have he : ({ data := d, admins := [sender] } : State) = st := by
      simpa [instantiate] using hst
    rw [← he]
    exact List.nodup_singleton sender
  | step storage sender msg hr ih =>
    intro st hst
    cases storage with
    | none =>
      rw [execute_none] at hst
      cases hst
    | some st0 =>
      have h0 := ih st0 rfl
      by_cases hm : sender ∈ st0.admins
      · cases msg with
        | Write d =>
          rw [show execute api (some st0) sender (.Write d) =
              execute.update (some st0) sender d from rfl,
            update_ok st0 sender d hm] at hst
          obtain rfl : ({ data := d, admins := st0.admins } : State) = st := by
            simpa using hst
          exact h0
        | AddAdmin admin =>
          cases hv : api admin with
          | error e =>
            rw [show execute api (some st0) sender (.AddAdmin admin) =
                execute.add_admin api (some st0) sender admin from rfl,
              add_admin_invalid api st0 sender admin e hm hv] at hst
            obtain rfl : st0 = st := by simpa using hst
            exact h0
          | ok a =>
            by_cases ha : a ∈ st0.admins
            · rw [show execute api (some st0) sender (.AddAdmin admin) =
                  execute.add_admin api (some st0) sender admin from rfl,
                add_admin_existing api st0 sender admin a hm hv ha] at hst
              obtain rfl : st0 = st := by simpa using hst
              exact h0
            · rw [show execute api (some st0) sender (.AddAdmin admin) =
                  execute.add_admin api (some st0) sender admin from rfl,
                add_admin_new api st0 sender admin a hm hv ha] at hst
              obtain rfl :
                  ({ data := st0.data, admins := st0.admins ++ [a] } : State)
                    = st := by
                simpa using hst
              refine h0.append (List.nodup_singleton a) ?_
              intro x hx hxa
              have hxeq : x = a := by simpa using hxa
              exact ha (hxeq ▸ hx)
        | RemoveAdmin admin =>
          cases hv : api admin with
          | error e =>
            rw [show execute api (some st0) sender (.RemoveAdmin admin) =
                execute.remove_admin api (some st0) sender admin from rfl,
              remove_admin_invalid api st0 sender admin e hm hv] at hst
            obtain rfl : st0 = st := by simpa using hst
            exact h0
          | ok a =>
            rw [show execute api (some st0) sender (.RemoveAdmin admin) =
                execute.remove_admin api (some st0) sender admin from rfl,
              remove_admin_ok api st0 sender admin a hm hv] at hst
            obtain rfl :
                ({ data := st0.data,
                   admins := st0.admins.filter (fun x => !(x == a)) } : State)
                  = st := by
              simpa using hst
            exact h0.filter _
      · have hunauth :
            execute api (some st0) sender msg = (some st0, .error .Unauthorized) := by
          cases msg with
          | Write d => exact update_unauth st0 sender d hm
          | AddAdmin admin => exact add_admin_unauth api st0 sender admin hm
          | RemoveAdmin admin => exact remove_admin_unauth api st0 sender admin hm
        rw [hunauth] at hst
        obtain rfl : st0 = st := by simpa using hst
        exact h0

/-- C7: the admin list never contains duplicate entries: no-duplicates holds
after instantiation and is preserved by every operation, for every reachable
state. -/
theorem C7_admins_nodup (api : Validator) (st : State)
    (h : Reachable api (some st)) : st.admins.Nodup :=
  reachable_nodup_aux api (some st) h st rfl

/-- Witness for C7: the state right after a concrete instantiation is
reachable and its admin list has no duplicates. -/
theorem C7_admins_nodup_witness : (["creator"] : List String).Nodup :=
  C7_admins_nodup mockValidate { data := [17], admins := ["creator"] }
    (Reachable.instantiated "creator" [17])

/-- C8 counterexample: the claim "for every malformed admin string the call
fails with InvalidAddress regardless of whether the caller is in the admin
list" is false on the code: `BAD` is malformed (the validator rejects it),
yet AddAdmin from the non-member `intruder` fails with `Unauthorized`, because
the code checks authorization before calling the validator. -/
theorem C8_counterexample :
    mockValidate "BAD" = .error .InvalidAddress
    ∧ execute mockValidate (some (State.mk [2] ["owner"])) "intruder"
        (.AddAdmin "BAD") =
      (some (State.mk [2] ["owner"]), .error .Unauthorized) := by
  decide

/-- C8 amended: inside the atomic update, AddAdmin and RemoveAdmin check the
caller's authorization first and validate the admin argument only afterwards:
a non-member caller always gets `Unauthorized` (whatever the admin string),
and a member caller with a malformed admin string gets the validation error
(`InvalidAddress`). -/
theorem C8_auth_then_validate (api : Validator) (st : State)
    (sender admin : String) :
    (sender ∉ st.admins →
      execute.add_admin api (some st) sender admin =
        (some st, .error .Unauthorized)
      ∧ execute.remove_admin api (some st) sender admin =
        (some st, .error .Unauthorized))
    ∧ ∀ e, sender ∈ st.admins → api admin = .error e →
      execute.add_admin api (some st) sender admin = (some st, .error e)
      ∧ execute.remove_admin api (some st) sender admin = (some st, .error e) := by
  constructor
  · intro hnm
    exact ⟨add_admin_unauth api st sender admin hnm,
           remove_admin_unauth api st sender admin hnm⟩
  · intro e hm hv
    exact ⟨add_admin_invalid api st sender admin e hm hv,
           remove_admin_invalid api st sender admin e hm hv⟩

/-- Witness for C8 (amended): the authorized `owner` submitting the malformed
address `BAD` gets `InvalidAddress`. -/
theorem C8_auth_then_validate_witness :
    execute.add_admin mockValidate (some { data := [2], admins := ["owner"] })
        "owner" "BAD" =
      (some { data := [2], admins := ["owner"] }, .error .InvalidAddress) :=
  ((C8_auth_then_validate mockValidate { data := [2], admins := ["owner"] }
    "owner" "BAD").2 .InvalidAddress (by decide) (by decide)).1

/-- C9 counterexample: the claim "the attribute value equals the canonical
(validated) form of the input string" is false on the code: with the
canonicalizing validator, the canonical form of `Alice` is `alice`, yet the
success attribute of AddAdmin echoes the raw input `Alice`. -/
theorem C9_counterexample :
    lowerValidate "Alice" = .ok "alice"
    ∧ (execute.add_admin lowerValidate (some (State.mk [] ["creator"]))
        "creator" "Alice").2 =
      .ok { attributes := [("action", "add_admin"), ("new_admin", "Alice")] }
    ∧ ("Alice" : String) ≠ "alice" := by
  decide

/-- C9 amended: the record stores (and `GetAdmins` echoes) the canonical
validated form of the admin argument, but the success attributes `new_admin`
and `removed_admin` echo the raw input string as supplied; the two coincide
only when the validator returns its input unchanged. -/
theorem C9_canonical_stored_raw_echoed (api : Validator) (st : State)
    (sender admin a : String) (hs : sender ∈ st.admins)
    (hv : api admin = .ok a) (ha : a ∉ st.admins) :
    query.admins (execute.add_admin api (some st) sender admin).1 =
      .ok { admins := st.admins ++ [a] }
    ∧ (execute.add_admin api (some st) sender admin).2 =
      .ok { attributes := [("action", "add_admin"), ("new_admin", admin)] }
    ∧ (execute.remove_admin api (some st) sender admin).2 =
      .ok { attributes :=
             [("action", "remove_admin"), ("removed_admin", admin)] } := by
  rw [add_admin_new api st sender admin a hs hv ha,
    remove_admin_ok api st sender admin a hs hv]
  exact ⟨rfl, rfl, rfl⟩

/-- Witness for C9 (amended): adding `Alice` under the canonicalizing
validator stores and lists the canonical `alice` while the attribute carries
the raw `Alice`. -/
theorem C9_canonical_stored_raw_echoed_witness :
    query.admins (execute.add_admin lowerValidate
        (some { data := [], admins := ["creator"] }) "creator" "Alice").1 =
      .ok { admins := ["creator", "alice"] }
    ∧ (execute.add_admin lowerValidate
        (some { data := [], admins := ["creator"] }) "creator" "Alice").2 =
      .ok { attributes := [("action", "add_admin"), ("new_admin", "Alice")] }
    ∧ (execute.remove_admin lowerValidate
        (some { data := [], admins := ["creator"] }) "creator" "Alice").2 =
      .ok { attributes :=
             [("action", "remove_admin"), ("removed_admin", "Alice")] } :=
  C9_canonical_stored_raw_echoed lowerValidate
    { data := [], admins := ["creator"] } "creator" "Alice" "alice"
    (by decide) (by decide) (by decide)

end CosmosWriter
